/-
Verification of the pyskyq EPG aggregation core against its specification.

The Lean definitions below are a shallow embedding of the Python source:

  * `src/pyskyq/channel.py`      — Channel, its factories, merge_channels,
                                   JSON (de)serialisation, __hash__;
  * `src/pyskyq/epg.py`          — EPG catalog operations (get_channel_by_sid,
                                   get_channel, apply_XMLTVListing, cronjob
                                   add/delete, cronjobs property);
  * `src/pyskyq/xmltvlisting.py` — XMLTVListing identity/equality and the
                                   fetch lifecycle with streaming gunzip;
  * `src/pyskyq/constants.py`    — CHANNELSOURCES bit flags, CHANNEL_FIELD_MAP.

Python dictionaries are modelled as insertion-ordered association lists with
unique keys, Python attribute values as the inductive `PyVal`, Python
exceptions as an explicit `PyErr` error type threaded through `Except`.
-/
import Mathlib

namespace Pyskyq

/-- ASCII lower-casing of a string, Python's `str.lower()` for the data in
play here; written over the character list so that it is kernel-reducible
(the core `String.toLower` recurses on byte positions with a well-founded
measure the kernel cannot unfold). -/
def pyLower (s : String) : String := String.mk (s.data.map Char.toLower)

/-- Does the character list contain the `://` scheme separator. -/
def hasSchemeSep : List Char → Bool
  | ':' :: '/' :: '/' :: _ => true
  | _ :: rest => hasSchemeSep rest
  | [] => false

/-- Splits a character list on single spaces (kernel-reducible stand-in for
`str.split`, used only for the cronspec validity model). -/
def sepFields : List Char → List Char → List (List Char)
  | [], acc => [acc.reverse]
  | c :: cs, acc =>
      if c = ' ' then acc.reverse :: sepFields cs []
      else sepFields cs (c :: acc)

/-- Value stored in a channel's attribute dictionary.  The spec's data model
for ChannelRecord attributes is "string, integer, boolean, or URL"; `none`
is Python's `None` (Sky payloads use it and the blank channel dict is filled
with it), and `url s` is a `yarl.URL` object whose canonical encoded string
(`str` of the object, the form yarl compares and hashes) is `s`; its lossy
`human_repr()` presentation is a separate, external function. -/
inductive PyVal where
  | str (s : String)
  | int (n : Int)
  | bool (b : Bool)
  | none
  | url (s : String)
  deriving DecidableEq, Repr

/-- A Python `dict` of channel attributes: insertion-ordered key/value list. -/
abbrev AttrDict : Type := List (String × PyVal)

/-- Dictionary lookup, `d.get(k, None)`-style but returning `Option` so that
an absent key is distinguishable from a stored `None`. -/
def dget : AttrDict → String → Option PyVal
  | [], _ => Option.none
  | p :: ps, k => if p.1 = k then some p.2 else dget ps k

/-- Python `d[k] = v`: update the entry in place if the key is present,
append it otherwise. -/
def dset (d : AttrDict) (k : String) (v : PyVal) : AttrDict :=
  if (dget d k).isSome then
    d.map (fun p => if p.1 = k then (k, v) else p)
  else
    d ++ [(k, v)]

/-- Python `{**a, **b}`: keys of `a` in order (with `b`'s value on a clash),
then the keys only in `b`, in `b`'s order. -/
def dictUnion (a b : AttrDict) : AttrDict :=
  a.map (fun p => match dget b p.1 with
                  | some v => (p.1, v)
                  | Option.none => p)
    ++ b.filter (fun p => (dget a p.1).isNone)

/-- Keys of an attribute dictionary. -/
def dkeys (d : AttrDict) : List String := d.map Prod.fst

/-- Real Python dicts never hold a key twice; association lists representing
them are well formed when their keys are pairwise distinct. -/
def nodupKeys (d : AttrDict) : Prop := (dkeys d).Nodup

instance (d : AttrDict) : Decidable (nodupKeys d) :=
  inferInstanceAs (Decidable ((dkeys d).Nodup))

/-- CHANNELSOURCES bit flags from constants.py (an IntFlag). -/
def CSRC_no_source : Nat := 0

/-- CHANNELSOURCES.skyq_service_summary. -/
def CSRC_skyq_service_summary : Nat := 1

/-- CHANNELSOURCES.skyq_service_detail. -/
def CSRC_skyq_service_detail : Nat := 2

/-- CHANNELSOURCES.xml_tv. -/
def CSRC_xml_tv : Nat := 4

/-- CHANNEL_FIELD_MAP from constants.py: maps human-friendly attribute names
to Sky's terse field names. -/
def CHANNEL_FIELD_MAP : List (String × String) :=
  [("number", "c"),
   ("quality", "sf"),
   ("id", "sid"),
   ("name", "t"),
   ("desc", "upgradeMessage")]

/-- Lookup in CHANNEL_FIELD_MAP. -/
def fieldMapGet : List (String × String) → String → Option String
  | [], _ => Option.none
  | p :: ps, k => if p.1 = k then some p.2 else fieldMapGet ps k

/-- A Channel object: its `_chan_dict` attribute dictionary and its
`_sources` CHANNELSOURCES flag value (an IntFlag, so a Nat bitset). -/
structure Channel where
  chan_dict : AttrDict
  sources : Nat
  deriving DecidableEq, Repr

/-- The `_chan_dict` a freshly `__new__`-ed Channel starts with. -/
def blank_chan_dict : AttrDict :=
  [("sid", PyVal.none), ("c", PyVal.none), ("t", PyVal.none),
   ("xmltv_id", PyVal.none)]

/-- Channel.__new__: blank dict, no sources. -/
def Channel.new : Channel :=
  { chan_dict := blank_chan_dict, sources := CSRC_no_source }

/-- Channel.__getattr__: return the dict entry if the name is a key, else
translate the name through CHANNEL_FIELD_MAP and `get` the translated key
with default `None`, else `None`. -/
def Channel.attr (c : Channel) (name : String) : PyVal :=
  match dget c.chan_dict name with
  | some v => v
  | Option.none =>
      match fieldMapGet CHANNEL_FIELD_MAP name with
      | some k => (dget c.chan_dict k).getD PyVal.none
      | Option.none => PyVal.none

/-- Channel.load_skyq_summary_data: new channel whose dict is the old dict
updated with the payload, with the summary source flag ORed in. -/
def Channel.load_skyq_summary_data (c : Channel) (payload : AttrDict) : Channel :=
  { chan_dict := dictUnion c.chan_dict payload,
    sources := c.sources ||| CSRC_skyq_service_summary }

/-- Channel.load_skyq_detail_data: like summary loading but with the payload's
`details` sub-dict and the detail source flag. -/
def Channel.load_skyq_detail_data (c : Channel) (details : AttrDict) : Channel :=
  { chan_dict := dictUnion c.chan_dict details,
    sources := c.sources ||| CSRC_skyq_service_detail }

/-- channel_from_skyq_service: factory building a channel from a SkyQ
service-summary payload. -/
def channel_from_skyq_service (payload : AttrDict) : Channel :=
  Channel.new.load_skyq_summary_data payload

/-- merge_channels from channel.py: dict union with `chan_b` winning on key
clashes, then non-null-wins overrides (written through the `id`, `c`, `t`
and `xmltv_id` attribute reads, exactly as the source does) and the OR of
the source flags. -/
def merge_channels (chan_a chan_b : Channel) : Channel :=
  let d0 := dictUnion chan_a.chan_dict chan_b.chan_dict
  let d1 := if chan_a.attr "id" ≠ PyVal.none ∧ chan_b.attr "id" = PyVal.none
            then dset d0 "sid" (chan_a.attr "id") else d0
  let d2 := if chan_b.attr "id" ≠ PyVal.none ∧ chan_a.attr "id" = PyVal.none
            then dset d1 "sid" (chan_b.attr "id") else d1
  let d3 := if chan_a.attr "c" ≠ PyVal.none ∧ chan_b.attr "c" = PyVal.none
            then dset d2 "c" (chan_a.attr "c") else d2
  let d4 := if chan_b.attr "c" ≠ PyVal.none ∧ chan_a.attr "c" = PyVal.none
            then dset d3 "c" (chan_b.attr "c") else d3
  let d5 := if chan_a.attr "t" ≠ PyVal.none ∧ chan_b.attr "t" = PyVal.none
            then dset d4 "t" (chan_a.attr "t") else d4
  let d6 := if chan_b.attr "t" ≠ PyVal.none ∧ chan_a.attr "t" = PyVal.none
            then dset d5 "t" (chan_b.attr "t") else d5
  let d7 := if chan_a.attr "xmltv_id" ≠ PyVal.none ∧ chan_b.attr "xmltv_id" = PyVal.none
            then dset d6 "xmltv_id" (chan_a.attr "xmltv_id") else d6
  let d8 := if chan_b.attr "xmltv_id" ≠ PyVal.none ∧ chan_a.attr "xmltv_id" = PyVal.none
            then dset d7 "xmltv_id" (chan_b.attr "xmltv_id") else d7
  { chan_dict := d8, sources := chan_a.sources ||| chan_b.sources }

/-- Python exceptions raised by the embedded code. -/
inductive PyErr where
  | valueError (msg : String)
  | typeError
  | keyError
  | indexError
  | attributeError (name : String)
  | assertionError
  | unboundLocalError
  | transferError
  deriving DecidableEq, Repr

instance {ε α : Type} [DecidableEq ε] [DecidableEq α] :
    DecidableEq (Except ε α) := fun x y =>
  match x, y with
  | Except.ok a, Except.ok b =>
      if h : a = b then isTrue (by rw [h])
      else isFalse (by intro hc; cases hc; exact h rfl)
  | Except.error e, Except.error f =>
      if h : e = f then isTrue (by rw [h])
      else isFalse (by intro hc; cases hc; exact h rfl)
  | Except.ok _, Except.error _ => isFalse (by intro hc; cases hc)
  | Except.error _, Except.ok _ => isFalse (by intro hc; cases hc)

/-- An XML element as produced by xml.etree: tag, attributes, children and
text payload.  Only what load_xmltv_data reads is represented. -/
inductive XMLElement where
  | mk (tag : String) (attrib : List (String × String))
       (children : List XMLElement) (text : Option String)

/-- Tag of an XML element. -/
def XMLElement.tag : XMLElement → String
  | .mk t _ _ _ => t

/-- Attributes of an XML element. -/
def XMLElement.attrib : XMLElement → List (String × String)
  | .mk _ a _ _ => a

/-- Children of an XML element. -/
def XMLElement.children : XMLElement → List XMLElement
  | .mk _ _ c _ => c

/-- Text of an XML element. -/
def XMLElement.text : XMLElement → Option String
  | .mk _ _ _ t => t

/-- Lookup in an XML attribute list (Python `attrib[k]`, KeyError if absent,
handled at the call site). -/
def xmlAttrGet : List (String × String) → String → Option String
  | [], _ => Option.none
  | p :: ps, k => if p.1 = k then some p.2 else xmlAttrGet ps k

/-- Resolution of an icon `src` against the base URL, standing in for
`base_url.join(URL(src))` of the external yarl library: an absolute `src`
replaces the base, a relative one is appended to it. -/
def urlJoinHR (base src : String) : String :=
  if hasSchemeSep src.data then src else base ++ src

/-- Default `base_url` argument of Channel.load_xmltv_data. -/
def xmltvBaseUrl : String := "http://www.xmltv.co.uk/"

/-- Channel.load_xmltv_data: asserts the element is a `channel` tag, stores
its `id` attribute as `xmltv_id` (KeyError if absent), then walks children
storing the icon URL and the display name. -/
def Channel.load_xmltv_data (c : Channel) (xml_chan : XMLElement)
    (base : String) : Except PyErr Channel := do
  if pyLower xml_chan.tag ≠ "channel" then
    throw PyErr.assertionError
  let idv ← match xmlAttrGet xml_chan.attrib "id" with
            | some s => pure s
            | Option.none => throw PyErr.keyError
  let d0 := dset c.chan_dict "xmltv_id" (PyVal.str idv)
  let d ← xml_chan.children.foldlM (fun d child =>
      if pyLower child.tag = "icon" then
        match xmlAttrGet child.attrib "src" with
        | some s => pure (dset d "xmltv_icon_url" (PyVal.url (urlJoinHR base s)))
        | Option.none => throw PyErr.keyError
      else if pyLower child.tag = "display-name" then
        pure (dset d "xmltv_display_name"
                (match child.text with
                 | some t => PyVal.str t
                 | Option.none => PyVal.none))
      else pure d) d0
  pure { chan_dict := d, sources := c.sources ||| CSRC_xml_tv }

/-- channel_from_xmltv_list: factory from an XMLTV channel element. -/
def channel_from_xmltv_list (xml_chan : XMLElement) : Except PyErr Channel :=
  Channel.new.load_xmltv_data xml_chan xmltvBaseUrl

/-- Deterministic stand-in for Python's `hash` on an attribute value. -/
def pyHash : PyVal → Int
  | PyVal.str s => Int.ofNat (s.data.foldl (fun a c => a * 31 + c.toNat) 7)
  | PyVal.int n => n
  | PyVal.bool b => if b then 1 else 0
  | PyVal.none => 271828
  | PyVal.url s => Int.ofNat (s.data.foldl (fun a c => a * 37 + c.toNat) 11)

/-- Channel.__hash__: for a channel sourced from both the SkyQ summary and
XMLTV it asserts `t == xmltv_display_name` before hashing `t`; for a
SkyQ-sourced channel it hashes `t`; for an XMLTV-sourced channel it hashes
`xmltv_display_name`; otherwise it hashes the empty source flag.  A missing
dict key surfaces as a KeyError (Python subscripts the dict directly). -/
def channelHash (c : Channel) : Except PyErr Int :=
  if c.sources &&& CSRC_skyq_service_summary = CSRC_skyq_service_summary ∧
     c.sources &&& CSRC_xml_tv = CSRC_xml_tv then
    match dget c.chan_dict "t", dget c.chan_dict "xmltv_display_name" with
    | some tv, some dv =>
        if tv = dv then pure (pyHash tv) else throw PyErr.assertionError
    | _, _ => throw PyErr.keyError
  else if c.sources &&& CSRC_skyq_service_summary = CSRC_skyq_service_summary then
    match dget c.chan_dict "t" with
    | some tv => pure (pyHash tv)
    | Option.none => throw PyErr.keyError
  else if c.sources &&& CSRC_xml_tv = CSRC_xml_tv then
    match dget c.chan_dict "xmltv_display_name" with
    | some dv => pure (pyHash dv)
    | Option.none => throw PyErr.keyError
  else
    pure (pyHash (PyVal.int (Int.ofNat CSRC_no_source)))

/-- A JSON value as produced by `json.dumps` for channel attribute values. -/
inductive JVal where
  | str (s : String)
  | int (n : Int)
  | bool (b : Bool)
  | null
  deriving DecidableEq, Repr

/-- The `_ChannelJSONEncoder` default: a `yarl.URL` object is written as
its `human_repr()` text; plain values pass through.  `human_repr` is
external yarl code and is LOSSY (it percent-decodes escapes such as `%2F`),
so it is taken as a parameter mapping the URL object's canonical string to
the human-readable text that lands in the JSON — no inverse is assumed. -/
def encodePyVal (human_repr : String → String) : PyVal → JVal
  | PyVal.str s => JVal.str s
  | PyVal.int n => JVal.int n
  | PyVal.bool b => JVal.bool b
  | PyVal.none => JVal.null
  | PyVal.url s => JVal.str (human_repr s)

/-- The JSON document `Channel.as_json` produces: a `__type__` tag,
the encoded attribute dict, and the sources flag as an integer. -/
structure ChannelJSON where
  type_tag : String
  attributes : List (String × JVal)
  sources : Nat
  deriving DecidableEq, Repr

/-- Channel.as_json, parameterised by yarl's `human_repr`. -/
def Channel.as_json (human_repr : String → String) (c : Channel) :
    ChannelJSON :=
  { type_tag := "__channel__",
    attributes := c.chan_dict.map
      (fun p => (p.1, encodePyVal human_repr p.2)),
    sources := c.sources }

/-- Plain JSON-to-Python decoding of one value. -/
def decodeJVal : JVal → PyVal
  | JVal.str s => PyVal.str s
  | JVal.int n => PyVal.int n
  | JVal.bool b => PyVal.bool b
  | JVal.null => PyVal.none

/-- skyq_json_decoder_hook from utils.py: if the decoded object has an
`xmltv_icon_url` key, replace its value with `URL(value)`.  The yarl URL
constructor is external and taken as the parameter `url_of_string`, mapping
the input text to the canonical string of the constructed URL object; it
accepts only strings, so any other decoded value there raises TypeError.
Nothing assumes `url_of_string (human_repr s) = s`: human_repr is lossy,
which is exactly what breaks the round trip for URLs carrying escapes. -/
def skyq_json_decoder_hook (url_of_string : String → String) (d : AttrDict) :
    Except PyErr AttrDict :=
  match dget d "xmltv_icon_url" with
  | Option.none => pure d
  | some (PyVal.str s) =>
      pure (dset d "xmltv_icon_url" (PyVal.url (url_of_string s)))
  | some _ => throw PyErr.typeError

/-- channel_from_json: decode the attributes (the object hook runs during
`json.loads`), check the `__type__` tag, and rebuild the channel;
parameterised by the yarl URL constructor the hook calls. -/
def channel_from_json (url_of_string : String → String) (j : ChannelJSON) :
    Except PyErr Channel := do
  let attrs ← skyq_json_decoder_hook url_of_string
                (j.attributes.map (fun p => (p.1, decodeJVal p.2)))
  if j.type_tag ≠ "__channel__" then
    throw (PyErr.valueError "Incorrect type metadata in JSON payload.")
  pure { chan_dict := attrs, sources := j.sources }

/-- Value of a hexadecimal digit character, if it is one. -/
def hexDigitVal (c : Char) : Option Nat :=
  if c.toNat ≥ 48 ∧ c.toNat ≤ 57 then some (c.toNat - 48)
  else if c.toNat ≥ 65 ∧ c.toNat ≤ 70 then some (c.toNat - 55)
  else if c.toNat ≥ 97 ∧ c.toNat ≤ 102 then some (c.toNat - 87)
  else Option.none

/-- Upper-case hexadecimal digit for a value below 16. -/
def hexDigitChar (n : Nat) : Char :=
  if n < 10 then Char.ofNat (48 + n) else Char.ofNat (55 + n)

/-- Percent-decoding of the valid `%XX` escapes in a character list — what
yarl's human_repr does to the encoded URL text. -/
def pctDecodeChars : List Char → List Char
  | '%' :: h1 :: h2 :: rest =>
      match hexDigitVal h1, hexDigitVal h2 with
      | some a, some b => Char.ofNat (16 * a + b) :: pctDecodeChars rest
      | _, _ => '%' :: pctDecodeChars (h1 :: h2 :: rest)
  | c :: rest => c :: pctDecodeChars rest
  | [] => []

/-- Characters yarl's quoter leaves raw in a URL (ASCII range): the RFC
3986 unreserved characters plus the reserved delimiters it does not
re-encode. -/
def urlSafeChar (c : Char) : Bool :=
  c.isAlphanum ||
  c = '-' || c = '.' || c = '_' || c = '~' || c = ':' || c = '/' ||
  c = '?' || c = '#' || c = '[' || c = ']' || c = '@' || c = '!' ||
  c = '$' || c = '&' || c = Char.ofNat 39 || c = '(' || c = ')' ||
  c = '*' || c = '+' || c = ',' || c = ';' || c = '='

/-- The `%XX` escape (upper-case hex) of one character. -/
def pctEncodeChar (c : Char) : List Char :=
  ['%', hexDigitChar (c.toNat / 16), hexDigitChar (c.toNat % 16)]

/-- The yarl constructor's requoting of a text: valid `%XX` escapes are
kept (hex upper-cased), a stray `%` and every unsafe character are
percent-encoded, safe characters stay raw. -/
def requoteChars : List Char → List Char
  | '%' :: h1 :: h2 :: rest =>
      match hexDigitVal h1, hexDigitVal h2 with
      | some _, some _ => '%' :: h1.toUpper :: h2.toUpper :: requoteChars rest
      | _, _ => pctEncodeChar '%' ++ requoteChars (h1 :: h2 :: rest)
  | c :: rest =>
      (if urlSafeChar c then [c] else pctEncodeChar c) ++ requoteChars rest
  | [] => []

/-- Modelled from yarl behaviour: `URL.human_repr()` as a function on the
canonical URL string — percent-decoding.  Used to instantiate the
parameterised JSON layer at concrete inputs. -/
def yarl_human_repr_model (s : String) : String :=
  String.mk (pctDecodeChars s.data)

/-- Modelled from yarl behaviour: `str(URL(text))` as a function on the
input text — requoting.  Composed with human_repr it is NOT the identity:
an escape decoding to a safe character (such as `%2F` to `/`) never comes
back. -/
def yarl_url_of_string_model (s : String) : String :=
  String.mk (requoteChars s.data)

/-- A `yarl.URL` value, by components.  yarl (per RFC 3986) normalises the
scheme and the host to lower case when a URL is constructed, and leaves the
path/query part exactly as given; `YarlURL` holds the components as they
were written, and `yarlNorm` is that construction-time normalisation. -/
structure YarlURL where
  scheme : String
  host : String
  pathq : String
  deriving DecidableEq, Repr

/-- Normalisation applied by the yarl URL constructor: scheme and host are
lowercased, the path/query part is preserved. -/
def yarlNorm (u : YarlURL) : YarlURL :=
  { scheme := pyLower u.scheme, host := pyLower u.host, pathq := u.pathq }

/-- The textual form of a URL, as written. -/
def urlText (u : YarlURL) : String :=
  u.scheme ++ "://" ++ u.host ++ u.pathq

/-- An XMLTVListing as far as identity is concerned: it stores the
`yarl.URL` built from the argument of `__init__` (so already normalised). -/
structure XMLTVListing where
  url : YarlURL
  deriving DecidableEq, Repr

/-- XMLTVListing construction from a URL: the stored `_url` is the yarl URL
object, i.e. the normalised components. -/
def XMLTVListing.ofURL (u : YarlURL) : XMLTVListing :=
  { url := yarlNorm u }

/-- XMLTVListing.__eq__: `isinstance(other, XMLTVListing) and
hash(other._url) == hash(self._url)`; yarl's URL hash is derived from the
normalised URL, so (ignoring hash collisions) two listings are equal exactly
when their stored URL objects are equal. -/
def listingEq (a b : XMLTVListing) : Bool :=
  a.url = b.url

/-- Mutable download state of an XMLTVListing together with the files the
fetch touches.  `destFile` is the content at `_full_path` (`none` = no file),
`tmpFile` the content at the `.tmp` path the fetch writes into. -/
structure ListingState where
  downloading : Bool
  downloaded : Bool
  destFile : Option (List Nat)
  tmpFile : Option (List Nat)
  lastModified : Option String
  deriving DecidableEq, Repr

/-- Download state right after `__init__`. -/
def ListingState.init : ListingState :=
  { downloading := false, downloaded := false, destFile := Option.none,
    tmpFile := Option.none, lastModified := Option.none }

/-- One step of `chunk_processor`: while `compressed_payload` is still set,
try streaming decompression and append its output to the file; on a
`zlib.error` append the raw chunk and clear the flag; once the flag is
cleared, append raw chunks.  The state is
(compressed_payload, decompressor state, file contents); `dec` is the
`zlib.decompressobj` decompress step, `Option.none` meaning `zlib.error`. -/
def chunk_processor {σ : Type} (dec : σ → List Nat → Option (σ × List Nat)) :
    (Bool × σ × List Nat) → List Nat → (Bool × σ × List Nat)
  | (flag, ds, file), chunk =>
    if flag then
      match dec ds chunk with
      | some (ds2, out) => (true, ds2, file ++ out)
      | Option.none => (false, ds, file ++ chunk)
    else (flag, ds, file ++ chunk)

/-- Folding `chunk_processor` over the received chunks, starting from the
current contents of the `.tmp` file (it is opened in append mode). -/
def processChunks {σ : Type} (dec : σ → List Nat → Option (σ × List Nat))
    (dInit : σ) (fileInit : List Nat) (chunks : List (List Nat)) :
    Bool × σ × List Nat :=
  chunks.foldl (chunk_processor dec) (true, dInit, fileInit)

/-- Outcome of the HTTP transfer inside `fetch`: either the whole body
arrives as a list of chunks (with the optional `last-modified` header), or
the request raises after some prefix of the chunks was delivered. -/
inductive FetchOutcome where
  | success (chunks : List (List Nat)) (lastModified : Option String)
  | failure (written : List (List Nat))

/-- XMLTVListing.fetch: set `_downloading`, stream the body through
`chunk_processor` into the `.tmp` file, and on completion move the temp
file over `_full_path`, record the header, and flip the flags.  The source
has no exception handler, so on a transfer failure the exception propagates
with the flags as they were at that point (`_downloading` still set) and
neither the destination file nor `_downloaded` touched. -/
def fetch {σ : Type} (dec : σ → List Nat → Option (σ × List Nat)) (dInit : σ)
    (st : ListingState) (outcome : FetchOutcome) :
    ListingState × Option PyErr :=
  let st1 := { st with downloading := true }
  match outcome with
  | FetchOutcome.success chunks lm =>
      let r := processChunks dec dInit (st1.tmpFile.getD []) chunks
      let lm2 := match lm with
                 | some v => some v
                 | Option.none => st1.lastModified
      ({ st1 with tmpFile := Option.none, destFile := some r.2.2,
                  lastModified := lm2, downloading := false,
                  downloaded := true },
       Option.none)
  | FetchOutcome.failure written =>
      let r := processChunks dec dInit (st1.tmpFile.getD []) written
      ({ st1 with tmpFile := some r.2.2 }, some PyErr.transferError)

/-- A CronJob dataclass from epg.py: its fields are `listing`, `schedule`
and `thread` — there is no `cronspec` field. -/
structure CronJob where
  listing : XMLTVListing
  schedule : String
  thread : Nat
  deriving DecidableEq, Repr

/-- EPG state as far as the claims need it: the `_channels` list, the
`_jobs` list, and bookkeeping of which cron threads were started/stopped
and which listings a `run_now` add ran immediately. -/
structure EPGState where
  channels : List Channel
  jobs : List CronJob
  startedThreads : List Nat
  stoppedThreads : List Nat
  ranNow : List XMLTVListing
  deriving DecidableEq, Repr

/-- EPG.get_channel_by_sid: linear search on the `sid` attribute against the
stringified argument; ValueError when nothing is loaded or nothing matches. -/
def get_channel_by_sid (channels : List Channel) (sid : String) :
    Except PyErr Channel :=
  if channels.isEmpty then
    throw (PyErr.valueError "No channels loaded.")
  else
    match channels.find? (fun c => c.attr "sid" = PyVal.str sid) with
    | some c => pure c
    | Option.none => throw (PyErr.valueError ("Sid:" ++ sid ++ " not found."))

/-- Python truthiness of an attribute value, used by `if not chan.timeshifted`. -/
def pyTruthy : PyVal → Bool
  | PyVal.str s => ¬ s.data.isEmpty
  | PyVal.int n => n ≠ 0
  | PyVal.bool b => b
  | PyVal.none => false
  | PyVal.url _ => true

/-- EPG.get_channel.  The method-local variable `channels` is only assigned
inside the two filter branches, so it is modelled as an `Option` that starts
unbound; reading it while unbound is Python's UnboundLocalError.  The fuzzy
ranking `process.extract` comes from the external fuzzywuzzy library and is
taken as a parameter returning the matched choice values; the QUALITY enum
comparison is modelled through the enum's value string (no claim exercises
that branch). -/
def get_channel (extract : String → List PyVal → Int → List PyVal)
    (channels : List Channel) (name : String)
    (fuzzy_match include_timeshift : Bool) (quality_flag : Option String)
    (limit : Int) : Except PyErr (List Channel) := do
  if limit < 1 then
    throw (PyErr.valueError "Limit must be 1 or higher.")
  if channels.isEmpty then
    throw (PyErr.valueError "No channels loaded.")
  let loc0 : Option (List Channel) :=
    if include_timeshift then Option.none
    else some (channels.filter (fun c => ¬ pyTruthy (c.attr "timeshifted")))
  let loc1 ← match quality_flag with
             | Option.none => pure loc0
             | some q =>
                 match loc0 with
                 | Option.none => throw PyErr.unboundLocalError
                 | some cs =>
                     pure (some (cs.filter
                       (fun c => c.attr "quality" = PyVal.str q)))
  match loc1 with
  | Option.none => throw PyErr.unboundLocalError
  | some cs =>
      let choices := cs.map (fun c => c.attr "name")
      let matched := extract name choices limit
      pure (cs.filter (fun c => matched.contains (c.attr "name")))

/-- The `.lower()` call on an attribute value: only strings have it. -/
def asStrLower (v : PyVal) : Except PyErr String :=
  match v with
  | PyVal.str s => pure (pyLower s)
  | _ => throw (PyErr.attributeError "lower")

/-- The inner loop of EPG.apply_XMLTVListing for one catalog channel: walk
the parsed fragments, and whenever the (rebound) local's name matches a
fragment's display name case-insensitively, rebind the local to the merge. -/
def applyFragments (c : Channel) (frags : List Channel) : Except PyErr Channel :=
  frags.foldlM (fun cur x => do
    let n ← asStrLower (cur.attr "name")
    let d ← asStrLower (x.attr "xmltv_display_name")
    if n = d then pure (merge_channels cur x) else pure cur) c

/-- EPG.apply_XMLTVListing: the outer loop rebinds its iteration variable
`skyq_channel` to the merged channel, which only updates the loop local —
`self._channels` itself is never written, so the catalog that results is the
one that went in (the per-channel merge results are computed and dropped). -/
def apply_XMLTVListing (channels : List Channel) (frags : List Channel) :
    Except PyErr (List Channel) := do
  if channels.isEmpty then
    throw (PyErr.valueError "No channels loaded.")
  let _ ← channels.mapM (fun c => applyFragments c frags)
  pure channels

/-- EPG.delete_XMLTV_listing_cronjob: `[job for job in self._jobs if
job.listing == listing][0]` raises IndexError on an empty match list, which
the surrounding `except ValueError` does not catch; on a hit the job's
thread is stopped and then `del self._jobs[cronjob]` raises TypeError (a
list cannot be indexed by a CronJob object), leaving `_jobs` unchanged. -/
def delete_XMLTV_listing_cronjob (st : EPGState) (listing : XMLTVListing) :
    EPGState × Option PyErr :=
  match st.jobs.filter (fun j => listingEq j.listing listing) with
  | [] => (st, some PyErr.indexError)
  | j :: _ =>
      ({ st with stoppedThreads := j.thread :: st.stoppedThreads },
       some PyErr.typeError)

/-- Attribute access `job.cronspec` on a CronJob dataclass: the dataclass
fields are `listing`, `schedule` and `thread`, so this always raises. -/
def cronJobCronspec (_j : CronJob) : Except PyErr String :=
  throw (PyErr.attributeError "cronspec")

/-- EPG.cronjobs property: `[(j.listing, j.cronspec) for j in self._jobs]`. -/
def cronjobs (st : EPGState) : Except PyErr (List (XMLTVListing × String)) :=
  st.jobs.mapM (fun j => do
    let c ← cronJobCronspec j
    pure (j.listing, c))

/-- EPG.add_XMLTV_listing_cronjob.  `croniter.is_valid` is the external
croniter library's cronspec validity check, taken as a parameter; the
`run_now` immediate fetch-and-apply cycle is recorded as an event.  A fresh
CronThread is started on the success path. -/
def add_XMLTV_listing_cronjob (is_valid : String → Bool) (st : EPGState)
    (listing : XMLTVListing) (cronspec : String) (run_now : Bool) :
    EPGState × Option PyErr :=
  if st.channels.isEmpty then
    (st, some (PyErr.valueError "No channels loaded."))
  else if ¬ (st.jobs.any (fun j => listingEq j.listing listing)) then
    if ¬ cronspec.data.isEmpty ∧ is_valid cronspec then
      let t := st.startedThreads.length
      let st2 := { st with
                   jobs := st.jobs ++ [{ listing := listing,
                                         schedule := cronspec,
                                         thread := t }],
                   startedThreads := st.startedThreads ++ [t],
                   ranNow := if run_now then st.ranNow ++ [listing]
                             else st.ranNow }
      (st2, Option.none)
    else
      (st, some (PyErr.valueError "Bad cronspec passed."))
  else
    (st, some (PyErr.valueError "XMLTVListing already added."))

/-- One non-null-wins override pair of merge_channels: first the
"chan_a defined, chan_b undefined" write, then the symmetric one.  The body
of merge_channels is definitionally the fourfold nesting of this helper
(see merge_channels_eq_nnOverride below). -/
def nnOverride (key : String) (va vb : PyVal) (d : AttrDict) : AttrDict :=
  let d1 := if va ≠ PyVal.none ∧ vb = PyVal.none then dset d key va else d
  if vb ≠ PyVal.none ∧ va = PyVal.none then dset d1 key vb else d1

/-- Checks that an attribute value is a yarl URL object. -/
def isUrlVal : PyVal → Bool
  | PyVal.url _ => true
  | _ => false

/-- A channel dict round-trips through JSON exactly when its URL-typed
values sit at the one key the decoder hook rebuilds (`xmltv_icon_url`) and
nowhere else; this predicate states that placement. -/
def urlPlacementOK (d : AttrDict) : Bool :=
  d.all (fun p => if p.1 = "xmltv_icon_url" then isUrlVal p.2
                  else !(isUrlVal p.2))

/-- Stand-in for the external `croniter.is_valid` used to instantiate
witnesses: accepts exactly the five-field cronspecs. -/
def croniter_is_valid_model (s : String) : Bool :=
  (sepFields s.data []).length = 5

/-- Channel for sid 2002 built from the device summary payload of the
spec's scenario. -/
def ch2002 : Channel :=
  channel_from_skyq_service
    [("sid", PyVal.str "2002"), ("t", PyVal.str "BBC One Lon")]

/-- Channel for sid 2862 built from the device summary payload of the
spec's scenario. -/
def ch2862 : Channel :=
  channel_from_skyq_service
    [("sid", PyVal.str "2862"), ("t", PyVal.str "UCB Ireland")]

/-- The XMLTV fragment element of the scenario: display-name BBC One Lon,
id f39... -/
def xmlFragBBCOne : XMLElement :=
  XMLElement.mk "channel" [("id", "f3932e75f691561adbe3b609369e487b")]
    [XMLElement.mk "display-name" [] [] (some "BBC One Lon")] Option.none

/-- The channel value channel_from_xmltv_list produces for xmlFragBBCOne. -/
def fragBBCOne : Channel :=
  { chan_dict := [("sid", PyVal.none), ("c", PyVal.none), ("t", PyVal.none),
                  ("xmltv_id", PyVal.str "f3932e75f691561adbe3b609369e487b"),
                  ("xmltv_display_name", PyVal.str "BBC One Lon")],
    sources := CSRC_xml_tv }

/-- A summary-payload channel whose payload carries a literal `id` key
shadowing the sid alias in `__getattr__`. -/
def chShadowedId : Channel :=
  channel_from_skyq_service
    [("sid", PyVal.str "2002"), ("id", PyVal.str "999")]

/-- A summary-sourced channel with an empty payload (all blank fields). -/
def chBlankSummary : Channel := channel_from_skyq_service []

/-- Catalog channel "BBC One Lon" for the search scenario. -/
def chBBCOneLon : Channel :=
  channel_from_skyq_service
    [("sid", PyVal.str "1"), ("t", PyVal.str "BBC One Lon")]

/-- Catalog channel "BBC One HD" for the search scenario. -/
def chBBCOneHD : Channel :=
  channel_from_skyq_service
    [("sid", PyVal.str "2"), ("t", PyVal.str "BBC One HD")]

/-- Catalog channel "BBC News" for the search scenario. -/
def chBBCNews : Channel :=
  channel_from_skyq_service
    [("sid", PyVal.str "3"), ("t", PyVal.str "BBC News")]

/-- A factory-produced channel whose payload put a plain string at the
`xmltv_icon_url` key. -/
def chStrIcon : Channel :=
  channel_from_skyq_service
    [("xmltv_icon_url", PyVal.str "http://foo.com/logo.png")]

/-- What deserialising chStrIcon's serialisation actually yields: the hook
has turned the string into a URL object. -/
def chStrIconDecoded : Channel :=
  { chan_dict := [("sid", PyVal.none), ("c", PyVal.none), ("t", PyVal.none),
                  ("xmltv_id", PyVal.none),
                  ("xmltv_icon_url", PyVal.url "http://foo.com/logo.png")],
    sources := CSRC_skyq_service_summary }

/-- An XMLTV fragment element with an icon, for the round-trip witness. -/
def xmlFragWithIcon : XMLElement :=
  XMLElement.mk "channel" [("id", "abc123")]
    [XMLElement.mk "icon" [("src", "http://www.xmltv.co.uk/images/abc123.png")]
       [] Option.none,
     XMLElement.mk "display-name" [] [] (some "BBC One Lon")] Option.none

/-- The channel channel_from_xmltv_list produces for xmlFragWithIcon: the
icon URL is a URL object at the xmltv_icon_url key. -/
def chIconChan : Channel :=
  { chan_dict := [("sid", PyVal.none), ("c", PyVal.none), ("t", PyVal.none),
                  ("xmltv_id", PyVal.str "abc123"),
                  ("xmltv_icon_url",
                   PyVal.url "http://www.xmltv.co.uk/images/abc123.png"),
                  ("xmltv_display_name", PyVal.str "BBC One Lon")],
    sources := CSRC_xml_tv }

/-- A configured listing source. -/
def listingFeed : XMLTVListing :=
  XMLTVListing.ofURL { scheme := "http", host := "host.com", pathq := "/some/feed" }

/-- EPG state with channels loaded and no cronjobs. -/
def epgNoJobs : EPGState :=
  { channels := [ch2002], jobs := [], startedThreads := [],
    stoppedThreads := [], ranNow := [] }

/-- EPG state with channels loaded and one cronjob for listingFeed. -/
def epgOneJob : EPGState :=
  { channels := [ch2002],
    jobs := [{ listing := listingFeed, schedule := "0 3 * * *", thread := 7 }],
    startedThreads := [7], stoppedThreads := [], ranNow := [] }

/-- A decompressor that always raises zlib.error (the body was never
actually gzip data). -/
def decFail : Unit → List Nat → Option (Unit × List Nat) :=
  fun _ _ => Option.none

/-- URL with a lower-case path. -/
def urlPathLower : YarlURL :=
  { scheme := "http", host := "foo.com", pathq := "/bar" }

/-- The same URL except for the letter case of the path. -/
def urlPathUpper : YarlURL :=
  { scheme := "http", host := "foo.com", pathq := "/BAR" }

/-- An XMLTV-sourced channel whose display name differs from the device
title only in letter case. -/
def fragLowerChan : Channel :=
  { chan_dict := [("sid", PyVal.none), ("c", PyVal.none), ("t", PyVal.none),
                  ("xmltv_id", PyVal.str "abc"),
                  ("xmltv_display_name", PyVal.str "bbc one lon")],
    sources := CSRC_xml_tv }

/-- Merge of the device channel with the case-differing XMLTV channel:
the catalog's case-insensitive name match would happily produce this. -/
def chMergedCaseDiff : Channel := merge_channels ch2002 fragLowerChan

theorem dget_append (l1 l2 : AttrDict) (k : String) :
    dget (l1 ++ l2) k = match dget l1 k with
                        | some v => some v
                        | Option.none => dget l2 k := by
  induction l1 with
  | nil => simp [dget]
  | cons p ps ih =>
      by_cases h : p.1 = k
      · simp [dget, h]
      · simp [dget, h, ih]

theorem dget_mapVal (f : PyVal → PyVal) (d : AttrDict) (k : String) :
    dget (d.map (fun p => (p.1, f p.2))) k = (dget d k).map f := by
  induction d with
  | nil => rfl
  | cons p ps ih =>
      by_cases h : p.1 = k
      · simp [dget, h]
      · simp [dget, h, ih]

theorem dget_mapUpd_self (d : AttrDict) (k : String) (v : PyVal)
    (h : (dget d k).isSome) :
    dget (d.map (fun p => if p.1 = k then (k, v) else p)) k = some v := by
  induction d with
  | nil => simp [dget] at h
  | cons p ps ih =>
      by_cases hp : p.1 = k
      · simp [dget, hp]
      · simp only [dget, hp, if_false] at h
        simp [dget, hp, ih h]

theorem dget_mapUpd_ne (d : AttrDict) (k k2 : String) (v : PyVal)
    (h : k2 ≠ k) :
    dget (d.map (fun p => if p.1 = k then (k, v) else p)) k2 = dget d k2 := by
  induction d with
  | nil => rfl
  | cons p ps ih =>
      by_cases hp : p.1 = k
      · simp [dget, hp, Ne.symm h, ih]
      · by_cases hp2 : p.1 = k2
        · simp [dget, hp, hp2, h, ih]
        · simp [dget, hp, hp2, ih]

theorem dget_dset_self (d : AttrDict) (k : String) (v : PyVal) :
    dget (dset d k v) k = some v := by
  unfold dset
  by_cases h : (dget d k).isSome
  · simp only [h, if_true]
    exact dget_mapUpd_self d k v h
  · simp only [h, Bool.false_eq_true, if_false, dget_append]
    have h2 : dget d k = Option.none := by
      cases hd : dget d k
      · rfl
      · rw [hd] at h
        simp at h
    simp [h2, dget]

theorem dget_dset_ne (d : AttrDict) (k k2 : String) (v : PyVal) (h : k2 ≠ k) :
    dget (dset d k v) k2 = dget d k2 := by
  unfold dset
  by_cases hs : (dget d k).isSome
  · simp only [hs, if_true]
    exact dget_mapUpd_ne d k k2 v h
  · simp only [hs, Bool.false_eq_true, if_false, dget_append]
    cases hd : dget d k2
    · simp [dget, Ne.symm h]
    · simp

theorem dget_filter_isNone (a b : AttrDict) (k : String) :
    dget (b.filter (fun p => (dget a p.1).isNone)) k =
      if (dget a k).isNone then dget b k else Option.none := by
  induction b with
  | nil => simp [dget]
  | cons p ps ih =>
      by_cases hp : p.1 = k
      · subst hp
        by_cases ha : (dget a p.1).isNone
        · simp [List.filter, ha, dget, ih]
        · simp [List.filter, ha, dget, ih]
      · by_cases ha : (dget a p.1).isNone
        · simp [List.filter, ha, dget, hp, ih]
        · simp [List.filter, ha, dget, hp, ih]

theorem dget_mapOverride (a b : AttrDict) (k : String) :
    dget (a.map (fun p => match dget b p.1 with
                          | some v => (p.1, v)
                          | Option.none => p)) k =
      match dget a k with
      | some v => some ((dget b k).getD v)
      | Option.none => Option.none := by
  induction a with
  | nil => rfl
  | cons p ps ih =>
      by_cases hp : p.1 = k
      · subst hp
        cases hb : dget b p.1 <;> simp [dget, hb]
      · cases hb : dget b p.1 <;> simp [dget, hb, hp, ih]

theorem dget_dictUnion (a b : AttrDict) (k : String) :
    dget (dictUnion a b) k =
      if (dget b k).isSome then dget b k else dget a k := by
  unfold dictUnion
  rw [dget_append, dget_mapOverride, dget_filter_isNone]
  cases hA : dget a k <;> cases hB : dget b k <;> simp

theorem dget_eq_none_iff (d : AttrDict) (k : String) :
    dget d k = Option.none ↔ ∀ p ∈ d, p.1 ≠ k := by
  induction d with
  | nil => simp [dget]
  | cons p ps ih =>
      by_cases hp : p.1 = k
      · simp [dget, hp]
      · simp [dget, hp, ih]

theorem dget_mem (d : AttrDict) (k : String) (v : PyVal)
    (h : dget d k = some v) : (k, v) ∈ d := by
  induction d with
  | nil => simp [dget] at h
  | cons p ps ih =>
      by_cases hp : p.1 = k
      · simp only [dget, hp, if_true] at h
        cases h
        have hpe : (k, p.2) = p := by rw [← hp]
        rw [hpe]
        exact List.mem_cons_self p ps
      · simp only [dget, hp, if_false] at h
        right
        exact ih h

theorem nodup_dget_of_mem (d : AttrDict) (h : nodupKeys d)
    (p : String × PyVal) (hp : p ∈ d) : dget d p.1 = some p.2 := by
  induction d with
  | nil => simp at hp
  | cons q qs ih =>
      unfold nodupKeys dkeys at h
      simp only [List.map_cons, List.nodup_cons] at h
      rcases List.mem_cons.mp hp with h1 | h2
      · subst h1
        simp [dget]
      · have hne : q.1 ≠ p.1 := by
          intro hEq
          exact h.1 (hEq ▸ List.mem_map_of_mem Prod.fst h2)
        simp only [dget, hne, if_false]
        exact ih h.2 h2

theorem map_eq_self_of_entries {α : Type} (l : List α) (f : α → α)
    (h : ∀ x ∈ l, f x = x) : l.map f = l := by
  induction l with
  | nil => rfl
  | cons a t ih =>
      simp only [List.map_cons, h a (List.mem_cons_self a t)]
      rw [ih (fun x hx => h x (List.mem_cons_of_mem a hx))]

theorem attr_getD (c : Channel) (k : String)
    (h : fieldMapGet CHANNEL_FIELD_MAP k = Option.none) :
    c.attr k = (dget c.chan_dict k).getD PyVal.none := by
  unfold Channel.attr
  cases hd : dget c.chan_dict k <;> simp [hd, h]

theorem attr_id_of_absent (c : Channel)
    (h : dget c.chan_dict "id" = Option.none) :
    c.attr "id" = (dget c.chan_dict "sid").getD PyVal.none := by
  unfold Channel.attr
  rw [h]
  rfl

theorem attr_id_eq_attr_sid (c : Channel)
    (h : dget c.chan_dict "id" = Option.none) :
    c.attr "id" = c.attr "sid" := by
  rw [attr_id_of_absent c h, attr_getD c "sid" (by decide)]

theorem merge_channels_eq_nnOverride (a b : Channel) :
    merge_channels a b =
      { chan_dict :=
          nnOverride "xmltv_id" (a.attr "xmltv_id") (b.attr "xmltv_id")
            (nnOverride "t" (a.attr "t") (b.attr "t")
              (nnOverride "c" (a.attr "c") (b.attr "c")
                (nnOverride "sid" (a.attr "id") (b.attr "id")
                  (dictUnion a.chan_dict b.chan_dict)))),
        sources := a.sources ||| b.sources } := rfl

theorem dget_nnOverride_ne (key : String) (va vb : PyVal) (d : AttrDict)
    (k2 : String) (h : k2 ≠ key) :
    dget (nnOverride key va vb d) k2 = dget d k2 := by
  unfold nnOverride
  split <;> split <;> simp [dget_dset_ne, h]

theorem dget_nnOverride_self (key : String) (va vb : PyVal) (d : AttrDict) :
    dget (nnOverride key va vb d) key =
      if va ≠ PyVal.none ∧ vb = PyVal.none then some va
      else if vb ≠ PyVal.none ∧ va = PyVal.none then some vb
      else dget d key := by
  unfold nnOverride
  by_cases h1 : va ≠ PyVal.none ∧ vb = PyVal.none
  · have h2 : ¬ (vb ≠ PyVal.none ∧ va = PyVal.none) := by
      intro hc
      exact hc.1 h1.2
    simp [h1, h2, dget_dset_self]
  · by_cases h2 : vb ≠ PyVal.none ∧ va = PyVal.none
    · simp [h1, h2, dget_dset_self]
    · simp [h1, h2]

theorem merge_chan_dict_eq (a b : Channel) :
    (merge_channels a b).chan_dict =
      nnOverride "xmltv_id" (a.attr "xmltv_id") (b.attr "xmltv_id")
        (nnOverride "t" (a.attr "t") (b.attr "t")
          (nnOverride "c" (a.attr "c") (b.attr "c")
            (nnOverride "sid" (a.attr "id") (b.attr "id")
              (dictUnion a.chan_dict b.chan_dict)))) := rfl

/-- C1: applying an XMLTV listing is supposed to replace each matching
catalog record with merge(existing, fragment); on this catalog (sids 2002
and 2862) with a fragment whose display-name is "BBC One Lon" and whose
xmltv_id is "f39...", the merge itself would set xmltv_id, but
apply_XMLTVListing only rebinds its loop variable and returns the catalog
unchanged, so findByIdentifier("2002") still has xmltv_id None. -/
theorem C1_apply_xmltv_listing_drops_merge_result :
    channel_from_xmltv_list xmlFragBBCOne = Except.ok fragBBCOne ∧
    fragBBCOne.attr "xmltv_display_name" = PyVal.str "BBC One Lon" ∧
    (merge_channels ch2002 fragBBCOne).attr "xmltv_id" =
      PyVal.str "f3932e75f691561adbe3b609369e487b" ∧
    apply_XMLTVListing [ch2002, ch2862] [fragBBCOne] =
      Except.ok [ch2002, ch2862] ∧
    get_channel_by_sid [ch2002, ch2862] "2002" = Except.ok ch2002 ∧
    ch2002.attr "xmltv_id" = PyVal.none := by
  decide

/-- C2 (counterexample): merge_channels reads the primary identifier
through the `id` alias, which a literal `id` dict key shadows; for the
factory-produced record with sid "2002" and a literal id "999" merged with
a blank-sid record, the result's sid is "999", not the first record's
"2002", refuting the claim as stated for all records. -/
theorem C2_merge_sid_shadowed_counterexample :
    chShadowedId.attr "sid" = PyVal.str "2002" ∧
    chBlankSummary.attr "sid" = PyVal.none ∧
    (merge_channels chShadowedId chBlankSummary).attr "sid" =
      PyVal.str "999" ∧
    (merge_channels chShadowedId chBlankSummary).attr "sid" ≠
      chShadowedId.attr "sid" := by
  decide

/-- C2 (amended): for channels whose attribute maps carry no literal `id`
key (so the id alias really reads sid), the non-null-wins rule holds
order-independently for sid, c, t and xmltv_id, and every other key found
in the second argument keeps the second argument's value in the merge. -/
theorem C2_merge_nonnull_wins (a b : Channel)
    (ha : dget a.chan_dict "id" = Option.none)
    (hb : dget b.chan_dict "id" = Option.none) :
    (a.attr "sid" ≠ PyVal.none → b.attr "sid" = PyVal.none →
       (merge_channels a b).attr "sid" = a.attr "sid" ∧
       (merge_channels b a).attr "sid" = a.attr "sid") ∧
    (a.attr "c" ≠ PyVal.none → b.attr "c" = PyVal.none →
       (merge_channels a b).attr "c" = a.attr "c" ∧
       (merge_channels b a).attr "c" = a.attr "c") ∧
    (a.attr "t" ≠ PyVal.none → b.attr "t" = PyVal.none →
       (merge_channels a b).attr "t" = a.attr "t" ∧
       (merge_channels b a).attr "t" = a.attr "t") ∧
    (a.attr "xmltv_id" ≠ PyVal.none → b.attr "xmltv_id" = PyVal.none →
       (merge_channels a b).attr "xmltv_id" = a.attr "xmltv_id" ∧
       (merge_channels b a).attr "xmltv_id" = a.attr "xmltv_id") ∧
    (∀ k, k ≠ "sid" → k ≠ "c" → k ≠ "t" → k ≠ "xmltv_id" →
       ∀ v, dget b.chan_dict k = some v →
       dget (merge_channels a b).chan_dict k = some v) := by
  have haid := attr_id_eq_attr_sid a ha
  have hbid := attr_id_eq_attr_sid b hb
  refine ⟨?_, ?_, ?_, ?_, ?_⟩
  · intro hA hB
    have hAid : a.attr "id" ≠ PyVal.none := by rw [haid]; exact hA
    have hBid : b.attr "id" = PyVal.none := by rw [hbid]; exact hB
    constructor
    · rw [attr_getD _ "sid" (by decide), merge_chan_dict_eq]
      rw [dget_nnOverride_ne "xmltv_id" _ _ _ "sid" (by decide)]
      rw [dget_nnOverride_ne "t" _ _ _ "sid" (by decide)]
      rw [dget_nnOverride_ne "c" _ _ _ "sid" (by decide)]
      rw [dget_nnOverride_self]
      rw [if_pos ⟨hAid, hBid⟩]
      simp [haid]
    · rw [attr_getD _ "sid" (by decide), merge_chan_dict_eq]
      rw [dget_nnOverride_ne "xmltv_id" _ _ _ "sid" (by decide)]
      rw [dget_nnOverride_ne "t" _ _ _ "sid" (by decide)]
      rw [dget_nnOverride_ne "c" _ _ _ "sid" (by decide)]
      rw [dget_nnOverride_self]
      rw [if_neg (fun hc => hc.1 hBid)]
      rw [if_pos ⟨hAid, hBid⟩]
      simp [haid]
  · intro hA hB
    constructor
    · rw [attr_getD _ "c" (by decide), merge_chan_dict_eq]
      rw [dget_nnOverride_ne "xmltv_id" _ _ _ "c" (by decide)]
      rw [dget_nnOverride_ne "t" _ _ _ "c" (by decide)]
      rw [dget_nnOverride_self]
      rw [if_pos ⟨hA, hB⟩]
      simp
    · rw [attr_getD _ "c" (by decide), merge_chan_dict_eq]
      rw [dget_nnOverride_ne "xmltv_id" _ _ _ "c" (by decide)]
      rw [dget_nnOverride_ne "t" _ _ _ "c" (by decide)]
      rw [dget_nnOverride_self]
      rw [if_neg (fun hc => hc.1 hB)]
      rw [if_pos ⟨hA, hB⟩]
      simp
  · intro hA hB
    constructor
    · rw [attr_getD _ "t" (by decide), merge_chan_dict_eq]
      rw [dget_nnOverride_ne "xmltv_id" _ _ _ "t" (by decide)]
      rw [dget_nnOverride_self]
      rw [if_pos ⟨hA, hB⟩]
      simp
    · rw [attr_getD _ "t" (by decide), merge_chan_dict_eq]
      rw [dget_nnOverride_ne "xmltv_id" _ _ _ "t" (by decide)]
      rw [dget_nnOverride_self]
      rw [if_neg (fun hc => hc.1 hB)]
      rw [if_pos ⟨hA, hB⟩]
      simp
  · intro hA hB
    constructor
    · rw [attr_getD _ "xmltv_id" (by decide), merge_chan_dict_eq]
      rw [dget_nnOverride_self]
      rw [if_pos ⟨hA, hB⟩]
      simp
    · rw [attr_getD _ "xmltv_id" (by decide), merge_chan_dict_eq]
      rw [dget_nnOverride_self]
      rw [if_neg (fun hc => hc.1 hB)]
      rw [if_pos ⟨hA, hB⟩]
      simp
  · intro k h1 h2 h3 h4 v hv
    rw [merge_chan_dict_eq]
    rw [dget_nnOverride_ne "xmltv_id" _ _ _ k h4]
    rw [dget_nnOverride_ne "t" _ _ _ k h3]
    rw [dget_nnOverride_ne "c" _ _ _ k h2]
    rw [dget_nnOverride_ne "sid" _ _ _ k h1]
    rw [dget_dictUnion, hv]
    rfl

/-- C2 (witness): instantiating the amended merge theorem on the sid 2002
device record and the BBC One Lon XMLTV fragment: sid "2002" survives the
merge in both argument orders. -/
theorem C2_merge_nonnull_wins_witness :
    dget ch2002.chan_dict "id" = Option.none ∧
    (merge_channels ch2002 fragBBCOne).attr "sid" = PyVal.str "2002" ∧
    (merge_channels fragBBCOne ch2002).attr "sid" = PyVal.str "2002" := by
  refine ⟨by decide, ?_, ?_⟩
  · have h := (C2_merge_nonnull_wins ch2002 fragBBCOne (by decide)
      (by decide)).1 (by decide) (by decide)
    rw [h.1]
    decide
  · have h := (C2_merge_nonnull_wins ch2002 fragBBCOne (by decide)
      (by decide)).1 (by decide) (by decide)
    rw [h.2]
    decide

/-- C3: search with fuzzy matching, limit 1 and the remaining parameters at
their defaults is supposed to return one BBC One channel; the method-local
`channels` is only assigned in the filter branches, so with the default
include_timeshift=True the code instead raises UnboundLocalError, whatever
the fuzzy ranking function would say. -/
theorem C3_get_channel_unbound_local
    (extract : String → List PyVal → Int → List PyVal) :
    get_channel extract [chBBCOneLon, chBBCOneHD, chBBCNews] "BBC One"
        true true Option.none 1 =
      Except.error PyErr.unboundLocalError := rfl

theorem decode_encode_id (human_repr : String → String) (v : PyVal)
    (h : isUrlVal v = false) :
    decodeJVal (encodePyVal human_repr v) = v := by
  cases v with
  | url s => simp [isUrlVal] at h
  | str s => rfl
  | int n => rfl
  | bool b => rfl
  | none => rfl

/-- The yarl round trip through human_repr is lossy: a `%2F` escape in an
icon path decodes to a plain `/` and never comes back on re-parsing, so
`URL(human_repr(u))` differs from `u` for such URLs. -/
theorem yarl_human_repr_model_lossy :
    yarl_human_repr_model "http://foo.com/images/a%2Fb.png" =
      "http://foo.com/images/a/b.png" ∧
    yarl_url_of_string_model
        (yarl_human_repr_model "http://foo.com/images/a%2Fb.png") ≠
      "http://foo.com/images/a%2Fb.png" := by
  decide

theorem bool_eq_false_of_not (b : Bool) (h : (!b) = true) : b = false := by
  cases b
  · rfl
  · simp at h

/-- C4 (counterexample): a factory-produced record whose payload put a plain
string at the xmltv_icon_url key does not survive the round trip — the
decoder hook rebuilds a URL object there, so the deserialised record
differs from the original. -/
theorem C4_roundtrip_string_icon_counterexample :
    channel_from_json yarl_url_of_string_model
        (Channel.as_json yarl_human_repr_model chStrIcon) =
      Except.ok chStrIconDecoded ∧
    chStrIconDecoded ≠ chStrIcon := by
  decide

/-- C4 (amended): deserialising the serialisation gives back an equal
record for every channel whose attribute dict has no duplicate keys,
carries URL objects exactly at the xmltv_icon_url key (where the XMLTV
loader puts them) and nowhere else, and whose icon URL survives the yarl
presentation round trip — `URL(u.human_repr()) == u` — which escape-free
URLs do but URLs carrying escapes such as `%2F` do not (human_repr is
lossy, see yarl_human_repr_model_lossy).  Stated for every pair of
human_repr / URL-constructor functions, committing to nothing about yarl
beyond what the hypothesis names. -/
theorem C4_channel_roundtrip (human_repr url_of_string : String → String)
    (c : Channel)
    (h1 : nodupKeys c.chan_dict) (h2 : urlPlacementOK c.chan_dict = true)
    (h3 : ∀ s, dget c.chan_dict "xmltv_icon_url" = some (PyVal.url s) →
          url_of_string (human_repr s) = s) :
    channel_from_json url_of_string (Channel.as_json human_repr c) =
      Except.ok c := by
  have hall := List.all_eq_true.mp h2
  have hmm : (List.map (fun p : String × JVal => (p.1, decodeJVal p.2))
               (List.map (fun p : String × PyVal =>
                   (p.1, encodePyVal human_repr p.2))
                 c.chan_dict)) =
      c.chan_dict.map
        (fun p => (p.1, decodeJVal (encodePyVal human_repr p.2))) := by
    rw [List.map_map]
    rfl
  have hm : dget (c.chan_dict.map
        (fun p => (p.1, decodeJVal (encodePyVal human_repr p.2))))
        "xmltv_icon_url" =
      (dget c.chan_dict "xmltv_icon_url").map
        (fun v => decodeJVal (encodePyVal human_repr v)) :=
    dget_mapVal (fun v => decodeJVal (encodePyVal human_repr v)) c.chan_dict
      "xmltv_icon_url"
  unfold channel_from_json Channel.as_json
  simp only
  rw [hmm]
  cases hd : dget c.chan_dict "xmltv_icon_url" with
  | none =>
      have hself : c.chan_dict.map
          (fun p => (p.1, decodeJVal (encodePyVal human_repr p.2))) =
          c.chan_dict := by
        apply map_eq_self_of_entries
        intro p hp
        obtain ⟨k0, v0⟩ := p
        have hne : k0 ≠ "xmltv_icon_url" :=
          (dget_eq_none_iff _ _).mp hd (k0, v0) hp
        have hu := hall (k0, v0) hp
        rw [if_neg hne] at hu
        have hnu := bool_eq_false_of_not _ hu
        simp only
        rw [decode_encode_id human_repr v0 hnu]
      rw [hself]
      unfold skyq_json_decoder_hook
      rw [hd]
      rfl
  | some v =>
      have hmem := dget_mem _ _ _ hd
      have hu := hall _ hmem
      rw [if_pos rfl] at hu
      cases v with
      | str s => simp [isUrlVal] at hu
      | int n => simp [isUrlVal] at hu
      | bool b => simp [isUrlVal] at hu
      | none => simp [isUrlVal] at hu
      | url s =>
          have hstab : url_of_string (human_repr s) = s := h3 s hd
          have hm2 : dget (c.chan_dict.map
              (fun p => (p.1, decodeJVal (encodePyVal human_repr p.2))))
              "xmltv_icon_url" = some (PyVal.str (human_repr s)) := by
            rw [hm, hd]
            rfl
          have hdset : dset (c.chan_dict.map
              (fun p => (p.1, decodeJVal (encodePyVal human_repr p.2))))
              "xmltv_icon_url" (PyVal.url s) = c.chan_dict := by
            unfold dset
            rw [hm2]
            simp only [Option.isSome_some, if_true]
            rw [List.map_map]
            apply map_eq_self_of_entries
            intro p hp
            obtain ⟨k0, v0⟩ := p
            by_cases hk : k0 = "xmltv_icon_url"
            · have hdp := nodup_dget_of_mem c.chan_dict h1 (k0, v0) hp
              simp only at hdp
              rw [hk] at hdp
              rw [hd] at hdp
              have hv0 : v0 = PyVal.url s := (Option.some.inj hdp).symm
              simp only [Function.comp_apply]
              rw [if_pos hk, hk, hv0]
            · have hu2 := hall (k0, v0) hp
              rw [if_neg hk] at hu2
              have hnu := bool_eq_false_of_not _ hu2
              simp only [Function.comp_apply]
              rw [if_neg hk]
              rw [decode_encode_id human_repr v0 hnu]
          unfold skyq_json_decoder_hook
          rw [hm2]
          simp only
          rw [hstab, hdset]
          rfl

/-- C4 (witness): the amended round trip at the XMLTV-sourced channel with
an escape-free icon URL really produced by channel_from_xmltv_list,
evaluated with the concrete lossy yarl model pair. -/
theorem C4_channel_roundtrip_witness :
    channel_from_xmltv_list xmlFragWithIcon = Except.ok chIconChan ∧
    nodupKeys chIconChan.chan_dict ∧
    urlPlacementOK chIconChan.chan_dict = true ∧
    yarl_url_of_string_model (yarl_human_repr_model
        "http://www.xmltv.co.uk/images/abc123.png") =
      "http://www.xmltv.co.uk/images/abc123.png" ∧
    channel_from_json yarl_url_of_string_model
        (Channel.as_json yarl_human_repr_model chIconChan) =
      Except.ok chIconChan :=
  ⟨by decide, by decide, by decide, by decide,
   C4_channel_roundtrip yarl_human_repr_model yarl_url_of_string_model
     chIconChan (by decide) (by decide)
     (by
       intro s hs
       have hd0 : dget chIconChan.chan_dict "xmltv_icon_url" =
           some (PyVal.url "http://www.xmltv.co.uk/images/abc123.png") := by
         decide
       rw [hd0] at hs
       have hseq : s = "http://www.xmltv.co.uk/images/abc123.png" :=
         (PyVal.url.inj (Option.some.inj hs)).symm
       rw [hseq]
       decide)⟩

/-- C5: removing a schedule is supposed to fail with ScheduleNotFoundError
(the code's ValueError) when absent, and on a hit cancel the trigger and
remove the entry; instead the miss raises IndexError (which the code's own
`except ValueError` cannot catch) and the hit stops the thread but then
raises TypeError at `del self._jobs[cronjob]`, leaving the job list intact
— and the cronjobs listing itself raises AttributeError because CronJob has
a `schedule` field, not `cronspec`. -/
theorem C5_delete_cronjob_always_raises :
    delete_XMLTV_listing_cronjob epgNoJobs listingFeed =
      (epgNoJobs, some PyErr.indexError) ∧
    (delete_XMLTV_listing_cronjob epgOneJob listingFeed).2 =
      some PyErr.typeError ∧
    (delete_XMLTV_listing_cronjob epgOneJob listingFeed).1.jobs =
      epgOneJob.jobs ∧
    (delete_XMLTV_listing_cronjob epgOneJob listingFeed).1.stoppedThreads =
      [7] ∧
    cronjobs epgOneJob = Except.error (PyErr.attributeError "cronspec") := by
  decide

/-- C6 (counterexample): on a failed transfer the fetch's exception
propagates with `_downloading` still set — the flag is not reset to false
as the claim states (there is no exception handler in fetch). -/
theorem C6_fetch_failure_downloading_not_reset :
    (fetch decFail () ListingState.init (FetchOutcome.failure [[1]])).2 =
      some PyErr.transferError ∧
    (fetch decFail () ListingState.init
        (FetchOutcome.failure [[1]])).1.downloading = true := by
  decide

/-- C6 (amended): fetch marks downloading at the start; on success the
processed body atomically replaces the destination file, downloaded
becomes true and downloading false; on failure the error propagates with
downloading left true (never reset), downloaded unchanged and the
destination file untouched. -/
theorem C6_fetch_lifecycle {σ : Type}
    (dec : σ → List Nat → Option (σ × List Nat)) (dInit : σ)
    (st : ListingState) (chunks written : List (List Nat))
    (lm : Option String) :
    ((fetch dec dInit st (FetchOutcome.success chunks lm)).2 =
        Option.none ∧
     (fetch dec dInit st (FetchOutcome.success chunks lm)).1.downloading =
        false ∧
     (fetch dec dInit st (FetchOutcome.success chunks lm)).1.downloaded =
        true ∧
     (fetch dec dInit st (FetchOutcome.success chunks lm)).1.destFile =
        some (processChunks dec dInit (st.tmpFile.getD []) chunks).2.2 ∧
     (fetch dec dInit st (FetchOutcome.success chunks lm)).1.tmpFile =
        Option.none) ∧
    ((fetch dec dInit st (FetchOutcome.failure written)).2 =
        some PyErr.transferError ∧
     (fetch dec dInit st (FetchOutcome.failure written)).1.downloading =
        true ∧
     (fetch dec dInit st (FetchOutcome.failure written)).1.downloaded =
        st.downloaded ∧
     (fetch dec dInit st (FetchOutcome.failure written)).1.destFile =
        st.destFile) := by
  unfold fetch
  simp

/-- C7: adding a cronjob with an unparseable cronspec fails with the
"Bad cronspec passed." ValueError (the spec's InvalidScheduleError), a
successful add registers the recurring CronThread trigger and records the
job, and a second add for an equal listing fails with the "XMLTVListing
already added." ValueError (the spec's DuplicateScheduleError). -/
theorem C7_add_cronjob_validation (is_valid : String → Bool) (st : EPGState)
    (l : XMLTVListing) (rn rn2 : Bool) (spec2 : String)
    (hch : st.channels.isEmpty = false)
    (hnotin : st.jobs.any (fun j => listingEq j.listing l) = false)
    (hbad : is_valid "invalid cron" = false)
    (hgood : is_valid "0 3 * * *" = true) :
    add_XMLTV_listing_cronjob is_valid st l "invalid cron" rn =
      (st, some (PyErr.valueError "Bad cronspec passed.")) ∧
    ((add_XMLTV_listing_cronjob is_valid st l "0 3 * * *" false).2 =
        Option.none ∧
     (add_XMLTV_listing_cronjob is_valid st l "0 3 * * *" false).1.jobs =
        st.jobs ++ [{ listing := l, schedule := "0 3 * * *",
                      thread := st.startedThreads.length }] ∧
     (add_XMLTV_listing_cronjob is_valid st l
        "0 3 * * *" false).1.startedThreads =
        st.startedThreads ++ [st.startedThreads.length]) ∧
    (add_XMLTV_listing_cronjob is_valid
        (add_XMLTV_listing_cronjob is_valid st l "0 3 * * *" false).1
        l spec2 rn2).2 =
      some (PyErr.valueError "XMLTVListing already added.") := by
  have hstep : add_XMLTV_listing_cronjob is_valid st l "0 3 * * *" false =
      ({ st with
         jobs := st.jobs ++ [{ listing := l, schedule := "0 3 * * *",
                               thread := st.startedThreads.length }],
         startedThreads := st.startedThreads ++ [st.startedThreads.length] },
       Option.none) := by
    unfold add_XMLTV_listing_cronjob
    have hne : ("0 3 * * *".data.isEmpty) = false := by decide
    simp [hch, hnotin, hgood, hne]
  refine ⟨?_, ?_, ?_⟩
  · unfold add_XMLTV_listing_cronjob
    have hne2 : ("invalid cron".data.isEmpty) = false := by decide
    simp [hch, hnotin, hbad, hne2]
  · rw [hstep]
    exact ⟨rfl, rfl, rfl⟩
  · rw [hstep]
    unfold add_XMLTV_listing_cronjob
    simp [hch, hnotin, listingEq, List.any_append]

/-- C7 (witness): the cronspec scenario evaluated with a concrete validity
checker, catalog and listing. -/
theorem C7_add_cronjob_validation_witness :
    croniter_is_valid_model "0 3 * * *" = true ∧
    croniter_is_valid_model "invalid cron" = false ∧
    add_XMLTV_listing_cronjob croniter_is_valid_model epgNoJobs listingFeed
        "invalid cron" false =
      (epgNoJobs, some (PyErr.valueError "Bad cronspec passed.")) ∧
    (add_XMLTV_listing_cronjob croniter_is_valid_model
        (add_XMLTV_listing_cronjob croniter_is_valid_model epgNoJobs
          listingFeed "0 3 * * *" false).1
        listingFeed "0 3 * * *" false).2 =
      some (PyErr.valueError "XMLTVListing already added.") :=
  ⟨by decide, by decide,
   (C7_add_cronjob_validation croniter_is_valid_model epgNoJobs listingFeed
      false false "0 3 * * *" (by decide) (by decide) (by decide)
      (by decide)).1,
   (C7_add_cronjob_validation croniter_is_valid_model epgNoJobs listingFeed
      false false "0 3 * * *" (by decide) (by decide) (by decide)
      (by decide)).2.2⟩

theorem processChunks_raw {σ : Type}
    (dec : σ → List Nat → Option (σ × List Nat)) (ds : σ) (file : List Nat)
    (cs : List (List Nat)) :
    cs.foldl (chunk_processor dec) (false, ds, file) =
      (false, ds, file ++ cs.flatten) := by
  induction cs generalizing file with
  | nil => simp
  | cons ch ct ih =>
      simp only [List.foldl_cons]
      rw [show chunk_processor dec (false, ds, file) ch =
            (false, ds, file ++ ch) from rfl]
      rw [ih]
      simp [List.append_assoc]

/-- C8: when the first chunk of a gzip-declared body fails to decompress,
the fetch falls back to writing the raw bytes for the whole transfer, does
not error, and the destination file is byte-identical to the served body. -/
theorem C8_gzip_fallback {σ : Type}
    (dec : σ → List Nat → Option (σ × List Nat)) (dInit : σ)
    (st : ListingState) (c0 : List Nat) (cs : List (List Nat))
    (lm : Option String)
    (h1 : st.tmpFile = Option.none)
    (h2 : dec dInit c0 = Option.none) :
    (fetch dec dInit st (FetchOutcome.success (c0 :: cs) lm)).2 =
      Option.none ∧
    (fetch dec dInit st (FetchOutcome.success (c0 :: cs) lm)).1.downloaded =
      true ∧
    (fetch dec dInit st (FetchOutcome.success (c0 :: cs) lm)).1.destFile =
      some ((c0 :: cs).flatten) := by
  unfold fetch processChunks
  rw [h1]
  simp only [Option.getD, List.foldl_cons]
  rw [show chunk_processor dec (true, dInit, ([] : List Nat)) c0 =
        (false, dInit, [] ++ c0) from by simp [chunk_processor, h2]]
  rw [processChunks_raw]
  simp

/-- C8 (witness): a two-chunk body that was never gzipped comes through
byte-identical. -/
theorem C8_gzip_fallback_witness :
    decFail () [1, 2] = Option.none ∧
    ListingState.init.tmpFile = Option.none ∧
    (fetch decFail () ListingState.init
        (FetchOutcome.success [[1, 2], [3]] Option.none)).1.destFile =
      some [1, 2, 3] :=
  ⟨rfl, rfl, by
    have h := C8_gzip_fallback decFail () ListingState.init [1, 2] [[3]]
      Option.none rfl rfl
    rw [h.2.2]
    rfl⟩

/-- C9 (counterexample): two URLs that differ only in the letter case of
their path give listings that are NOT equal — XMLTVListing equality is not
case-insensitive on the whole URL, because yarl only lowercases the scheme
and the host. -/
theorem C9_listing_path_case_counterexample :
    pyLower (urlText urlPathLower) = pyLower (urlText urlPathUpper) ∧
    urlPathLower ≠ urlPathUpper ∧
    listingEq (XMLTVListing.ofURL urlPathLower)
        (XMLTVListing.ofURL urlPathUpper) = false := by
  decide

/-- C9 (amended): two listings are equal exactly when their URLs agree
after lowercasing the scheme and the host with the path kept as written;
in particular scheme/host case differences do not matter but path case
does. -/
theorem C9_listingEq_iff_scheme_host_case (u v : YarlURL) :
    listingEq (XMLTVListing.ofURL u) (XMLTVListing.ofURL v) = true ↔
      (pyLower u.scheme = pyLower v.scheme ∧
       pyLower u.host = pyLower v.host ∧ u.pathq = v.pathq) := by
  cases u
  cases v
  simp [listingEq, XMLTVListing.ofURL, yarlNorm, YarlURL.mk.injEq]

/-- C10: hashing a channel sourced from both the device summary and XMLTV
asserts that its `t` attribute equals its `xmltv_display_name` attribute:
with equal names it returns the hash of `t`, with differing names (letter
case included) it raises AssertionError instead of returning a hash. -/
theorem C10_hash_asserts_names_match (c : Channel) (tv dv : PyVal)
    (h1 : c.sources &&& CSRC_skyq_service_summary = CSRC_skyq_service_summary)
    (h2 : c.sources &&& CSRC_xml_tv = CSRC_xml_tv)
    (ht : dget c.chan_dict "t" = some tv)
    (hd : dget c.chan_dict "xmltv_display_name" = some dv) :
    (tv = dv → channelHash c = Except.ok (pyHash tv)) ∧
    (tv ≠ dv → channelHash c = Except.error PyErr.assertionError) := by
  have hmain : channelHash c =
      if tv = dv then pure (pyHash tv) else throw PyErr.assertionError := by
    unfold channelHash
    rw [if_pos ⟨h1, h2⟩, ht, hd]
  rw [hmain]
  constructor
  · intro he
    rw [if_pos he]
    rfl
  · intro hne
    rw [if_neg hne]
    rfl

/-- C10 (witness): the merge the catalog's case-insensitive matching would
produce — device title "BBC One Lon", XMLTV display name "bbc one lon" —
fails to hash with an AssertionError. -/
theorem C10_hash_asserts_names_match_witness :
    dget chMergedCaseDiff.chan_dict "t" = some (PyVal.str "BBC One Lon") ∧
    dget chMergedCaseDiff.chan_dict "xmltv_display_name" =
      some (PyVal.str "bbc one lon") ∧
    channelHash chMergedCaseDiff = Except.error PyErr.assertionError :=
  ⟨by decide, by decide,
   (C10_hash_asserts_names_match chMergedCaseDiff (PyVal.str "BBC One Lon")
      (PyVal.str "bbc one lon") (by decide) (by decide) (by decide)
      (by decide)).2 (by decide)⟩

end Pyskyq
